import Mathlib

/-!
Verification development for a school attendance backend (FastAPI + MongoDB).

Shallow embedding of `src/main.py` and `src/schemas.py`:
* the Mongo database is a record of four in-memory collections plus a
  counter for generated ObjectIds;
* dates are encoded as natural numbers in `YYYYMMDD` order (the embedding
  only ever compares dates, and this encoding preserves calendar order);
* each HTTP handler becomes a function from the database state (and the
  decoded request) to the new state and an `Except`-style response;
* pydantic request bodies are fields wrapped in `Option` (a missing field
  is `none`), and each schema gets a `parse` function mirroring exactly the
  constraints declared in `schemas.py`;
* grade scores (Python floats) are modelled as rationals, which is faithful
  for the order comparisons `ge=0, le=100` that the code performs.
-/

namespace SchoolApi

/-- HTTP-level failure outcomes used by the handlers in `main.py`. -/
inductive Http where
  | notFound404
  | validation422
  | badRequest400
  | serverError500
deriving DecidableEq, Repr

/-- Stored document of the `student` collection. -/
structure StudentDoc where
  _id : String
  name : String
  className : String
deriving DecidableEq, Repr

/-- Stored document of the `attendance` collection.  `created_at` is the
placeholder field written by the upsert's `$setOnInsert` clause. -/
structure AttendanceDoc where
  _id : String
  student_id : String
  date : Nat
  status : String
  created_at : Option Nat
deriving DecidableEq, Repr

/-- Stored document of the `agenda` collection. -/
structure AgendaDoc where
  _id : String
  title : String
  date : Nat
  note : Option String
deriving DecidableEq, Repr

/-- Stored document of the `grade` collection. -/
structure GradeDoc where
  _id : String
  student_id : String
  subject : String
  score : Rat
  date : Option Nat
deriving DecidableEq, Repr

/-- The Mongo database state: the four collections touched by the handlers,
plus a counter from which generated ObjectIds are drawn.  Collections are
lists in store-native (insertion) order. -/
structure DB where
  students : List StudentDoc
  attendance : List AttendanceDoc
  agendas : List AgendaDoc
  grades : List GradeDoc
  nextId : Nat
deriving DecidableEq, Repr

/-- `schemas.Student`: a validated Student body. -/
structure Student where
  name : String
  className : String
deriving DecidableEq, Repr

/-- `schemas.Attendance`: a validated Attendance body. -/
structure Attendance where
  student_id : String
  date : Nat
  status : String
deriving DecidableEq, Repr

/-- `schemas.Grade`: a validated Grade body. -/
structure Grade where
  student_id : String
  subject : String
  score : Rat
  date : Option Nat
deriving DecidableEq, Repr

/-- Pydantic validation of a Student body (`schemas.py` lines 19-21): both
fields are required (`Field(...)`) of type `str`, with no further
constraint, so any string value — the empty string included — passes. -/
def Student.parse (name className : Option String) : Option Student :=
  match name, className with
  | some n, some c => some ⟨n, c⟩
  | _, _ => none

/-- Pydantic validation of a Grade body (`schemas.py` lines 33-37):
`student_id`, `subject`, `score` are required; `score` carries `ge=0, le=100`;
`date` is optional with default `None`. -/
def Grade.parse (student_id subject : Option String) (score : Option Rat)
    (date : Option Nat) : Option Grade :=
  match student_id, subject, score with
  | some s, some sub, some sc =>
      if 0 ≤ sc ∧ sc ≤ 100 then some ⟨s, sub, sc, date⟩ else none
  | _, _, _ => none

/-- Modelled from the spec: `database.py` is not among the source files; per
section 4.1 of the spec, `create_document` inserts the record into the named
collection and returns the newly generated identifier as text.  Generated
ids are drawn from the state's counter. -/
def freshId (n : Nat) : String := "oid" ++ toString n

/-- Modelled from the spec: `create_document("student", payload)`. -/
def create_document_student (db : DB) (s : Student) : DB × String :=
  let i := freshId db.nextId
  ({ db with students := db.students ++ [⟨i, s.name, s.className⟩],
             nextId := db.nextId + 1 }, i)

/-- Modelled from the spec: `create_document("grade", payload)`. -/
def create_document_grade (db : DB) (g : Grade) : DB × String :=
  let i := freshId db.nextId
  ({ db with grades := db.grades ++ [⟨i, g.student_id, g.subject, g.score, g.date⟩],
             nextId := db.nextId + 1 }, i)

/-- `POST /students` (`main.py` lines 96-99), with FastAPI's body validation
in front of the handler: a body failing pydantic validation yields the
422 response and the handler never runs; otherwise `create_document` is
called and the generated id returned. -/
def create_student (db : DB) (name className : Option String) :
    DB × Except Http String :=
  match Student.parse name className with
  | none => (db, Except.error Http.validation422)
  | some s =>
      let r := create_document_student db s
      (r.1, Except.ok r.2)

/-- `POST /grades` (`main.py` lines 221-224), with FastAPI's body validation
in front of the handler. -/
def add_grade (db : DB) (student_id subject : Option String)
    (score : Option Rat) (date : Option Nat) : DB × Except Http String :=
  match Grade.parse student_id subject score date with
  | none => (db, Except.error Http.validation422)
  | some g =>
      let r := create_document_grade db g
      (r.1, Except.ok r.2)

/-- Mongo's `delete_one(filter)`: removes the first document matching the
filter, returning the new collection and the `deleted_count` (0 or 1). -/
def delete_one {α : Type} (p : α → Bool) : List α → List α × Nat
  | [] => ([], 0)
  | x :: xs =>
      if p x then (xs, 1)
      else
        let r := delete_one p xs
        (x :: r.1, r.2)

/-- `DELETE /students/{student_id}` (`main.py` lines 115-124).  Note the
order of operations in the source: the two cascade `delete_many` calls on
`attendance` and `grade` run BEFORE `delete_one` on `student`, so they run
even when the student id matches nothing and the handler then raises 404. -/
def delete_student (db : DB) (sid : String) : DB × Except Http Unit :=
  let att := db.attendance.filter (fun a => a.student_id != sid)
  let gr := db.grades.filter (fun g => g.student_id != sid)
  let r := delete_one (fun s : StudentDoc => s._id == sid) db.students
  let db1 := { db with students := r.1, attendance := att, grades := gr }
  if r.2 == 0 then (db1, Except.error Http.notFound404)
  else (db1, Except.ok ())

/-- `DELETE /agendas/{agenda_id}` (`main.py` lines 211-218). -/
def delete_agenda (db : DB) (i : String) : DB × Except Http Unit :=
  let r := delete_one (fun a : AgendaDoc => a._id == i) db.agendas
  let db1 := { db with agendas := r.1 }
  if r.2 == 0 then (db1, Except.error Http.notFound404)
  else (db1, Except.ok ())

/-- `DELETE /grades/{grade_id}` (`main.py` lines 232-239). -/
def delete_grade (db : DB) (i : String) : DB × Except Http Unit :=
  let r := delete_one (fun g : GradeDoc => g._id == i) db.grades
  let db1 := { db with grades := r.1 }
  if r.2 == 0 then (db1, Except.error Http.notFound404)
  else (db1, Except.ok ())

/-- `DELETE /attendance/{attendance_id}` (`main.py` lines 182-189). -/
def delete_attendance (db : DB) (i : String) : DB × Except Http Unit :=
  let r := delete_one (fun a : AttendanceDoc => a._id == i) db.attendance
  let db1 := { db with attendance := r.1 }
  if r.2 == 0 then (db1, Except.error Http.notFound404)
  else (db1, Except.ok ())

/-- The upsert key on attendance: `{"student_id": ..., "date": ...}`. -/
def attKey (sid : String) (d : Nat) (a : AttendanceDoc) : Bool :=
  a.student_id == sid && a.date == d

/-- Mongo's `update_one` on the first matching document: replaces the first
element satisfying `p` by its image under `f`, leaving the rest unchanged. -/
def updateFirst {α : Type} (p : α → Bool) (f : α → α) : List α → List α
  | [] => []
  | x :: xs => if p x then f x :: xs else x :: updateFirst p f xs

/-- The `$set` document of the attendance upsert: overwrites `student_id`,
`date` and `status` with the payload's values (the payload's `model_dump()`),
leaving `_id` and `created_at` untouched. -/
def attSet (pl : Attendance) (a : AttendanceDoc) : AttendanceDoc :=
  { a with student_id := pl.student_id, date := pl.date, status := pl.status }

/-- `POST /attendance` (`main.py` lines 127-139): upsert keyed on
`(student_id, date)`.  If a document matches the key, `$set` overwrites its
payload fields; otherwise a new document is inserted carrying the filter
fields, the `$set` fields and the `$setOnInsert` field `created_at = None`.
Afterwards the handler re-fetches (`find_one`) the current record for the
key and returns it. -/
def mark_attendance (db : DB) (pl : Attendance) :
    DB × Option AttendanceDoc :=
  let key := attKey pl.student_id pl.date
  if db.attendance.any key then
    let att := updateFirst key (attSet pl) db.attendance
    ({ db with attendance := att }, att.find? key)
  else
    let doc : AttendanceDoc :=
      ⟨freshId db.nextId, pl.student_id, pl.date, pl.status, none⟩
    let att := db.attendance ++ [doc]
    ({ db with attendance := att, nextId := db.nextId + 1 }, att.find? key)

/-- The filter value a handler may place under the `"date"` key: either an
exact match or a `{"$gte": ..., "$lte": ...}` range document. -/
inductive DateCond where
  | eq (d : Nat)
  | range (gte lte : Option Nat)
deriving DecidableEq, Repr

/-- The `"date"` entry of the query filter built by `list_attendance` and
`export_attendance_csv` (`main.py` lines 146-154 and 163-169): an exact
`on_date` entry first, which the range entry then overwrites whenever a
range bound is supplied (`if start_date or end_date`, a `date` value being
always truthy in Python). -/
def dateFilt (on_date start_date end_date : Option Nat) : Option DateCond :=
  let f : Option DateCond :=
    match on_date with
    | some d => some (DateCond.eq d)
    | none => none
  if start_date.isSome || end_date.isSome then
    some (DateCond.range start_date end_date)
  else f

/-- Mongo's evaluation of the `"date"` filter entry against a document's
date: absent entry matches everything, `$gte`/`$lte` are inclusive. -/
def matchesDate (c : Option DateCond) (d : Nat) : Bool :=
  match c with
  | none => true
  | some (DateCond.eq e) => d == e
  | some (DateCond.range g l) =>
      (g.all fun lo => decide (lo ≤ d)) && (l.all fun hi => decide (d ≤ hi))

/-- The `"student_id"` entry of a query filter: Python's `if student_id:`
guard means both `None` and the empty string leave the filter empty. -/
def sidFilt (student_id : Option String) : Option String :=
  match student_id with
  | some s => if s == "" then none else some s
  | none => none

/-- Mongo's evaluation of the `"student_id"` equality filter entry. -/
def matchesSid (c : Option String) (s : String) : Bool :=
  match c with
  | none => true
  | some v => s == v

/-- `GET /attendance` (`main.py` lines 141-156): builds the filter from the
four optional query parameters and returns the matching documents in
store-native order. -/
def list_attendance (db : DB) (student_id : Option String)
    (on_date start_date end_date : Option Nat) : List AttendanceDoc :=
  let sf := sidFilt student_id
  let df := dateFilt on_date start_date end_date
  db.attendance.filter fun a => matchesSid sf a.student_id && matchesDate df a.date

/-- The CSV header row written by `export_attendance_csv`. -/
def csvHeader : List String := ["_id", "student_id", "date", "status"]

/-- One CSV data row: `[str(r["_id"]), r["student_id"], str(r["date"]),
r["status"]]`, every value rendered as plain text. -/
def csvRow (r : AttendanceDoc) : List String :=
  [r._id, r.student_id, toString r.date, r.status]

/-- `GET /attendance/export` (`main.py` lines 158-180): queries attendance
with the optional inclusive date range (same range construction as
`list_attendance`, no `on_date`, no `student_id`) and produces the CSV as a
list of rows: the fixed header first, then one row per matching record. -/
def export_attendance_csv (db : DB) (start_date end_date : Option Nat) :
    List (List String) :=
  let df := dateFilt none start_date end_date
  let rows := db.attendance.filter fun a => matchesDate df a.date
  csvHeader :: rows.map csvRow

/-- Modelled from the spec: `get_documents("grade", filt)` from the missing
`database.py` returns all records of the collection matching the optional
equality filter (spec section 4.1). `GET /grades` (`main.py` lines 226-230)
builds `filt = {"student_id": student_id} if student_id else {}`. -/
def list_grades (db : DB) (student_id : Option String) : List GradeDoc :=
  match sidFilt student_id with
  | none => db.grades
  | some s => db.grades.filter fun g => g.student_id == s

/-- The login response body. -/
structure LoginResponse where
  token : String
deriving DecidableEq, Repr

/-- `POST /login` (`main.py` lines 242-248): rejects with 400 when either
field is falsy (the empty string), otherwise issues the deterministic token
`"token-" ++ username`. -/
def login (username password : String) : Except Http LoginResponse :=
  if username == "" || password == "" then Except.error Http.badRequest400
  else Except.ok ⟨"token-" ++ username⟩

/-- The empty database state. -/
def emptyDB : DB := ⟨[], [], [], [], 0⟩

/-- Fixture: one attendance and one grade record referencing student id
`"aaaabbbbccccddddeeeeffff"`, but no student with that `_id`. -/
def exDB1 : DB :=
  { students := [⟨"a0f1a0f1a0f1a0f1a0f1a0f1", "Budi", "5A"⟩],
    attendance := [⟨"att1", "aaaabbbbccccddddeeeeffff", 20240101, "Hadir", none⟩],
    agendas := [⟨"ag1", "Upacara", 20240102, none⟩],
    grades := [⟨"gr1", "aaaabbbbccccddddeeeeffff", "Math", 90, none⟩],
    nextId := 7 }

/-- Fixture: a single attendance record dated outside January 2024. -/
def exDB2 : DB :=
  { students := [],
    attendance := [⟨"att2", "s1", 20240201, "Alfa", none⟩],
    agendas := [], grades := [], nextId := 3 }

/-- Fixture: one attendance record inside January 2024 and one dated
2024-02-01, just outside it. -/
def exDB4 : DB :=
  { students := [],
    attendance := [⟨"att1", "s1", 20240115, "Hadir", none⟩,
                   ⟨"att2", "s1", 20240201, "Alfa", none⟩],
    agendas := [], grades := [], nextId := 9 }

/-! ## Helper lemmas -/

/-- `delete_one` on a list in which nothing matches deletes nothing. -/
theorem delete_one_of_none {α : Type} (p : α → Bool) (l : List α)
    (h : ∀ x ∈ l, p x = false) : delete_one p l = (l, 0) := by
  induction l with
  | nil => rfl
  | cons x xs ih =>
      have hx := h x (List.mem_cons_self x xs)
      simp only [delete_one, hx, Bool.false_eq_true, if_false]
      rw [ih fun y hy => h y (List.mem_cons_of_mem x hy)]

/-- `find?` returns the head of the filtered list. -/
theorem find_eq_head_filter {α : Type} (p : α → Bool) (l : List α) :
    l.find? p = (l.filter p).head? := by
  induction l with
  | nil => rfl
  | cons x xs ih =>
      by_cases hx : p x = true
      · rw [List.find?_cons_of_pos _ hx, List.filter_cons_of_pos hx]
        rfl
      · simp only [Bool.not_eq_true] at hx
        rw [List.find?_cons_of_neg _ (by simp [hx]),
          List.filter_cons_of_neg (by simp [hx]), ih]

/-- `updateFirst` leaves every projection that `f` preserves unchanged. -/
theorem updateFirst_map {α β : Type} (p : α → Bool) (f : α → α) (g : α → β)
    (hf : ∀ a, g (f a) = g a) (l : List α) :
    (updateFirst p f l).map g = l.map g := by
  induction l with
  | nil => rfl
  | cons x xs ih =>
      by_cases hx : p x = true
      · simp [updateFirst, hx, hf]
      · simp only [Bool.not_eq_true] at hx
        simp [updateFirst, hx, ih]

/-! ## Claim theorems -/

/-- Claim C1, counterexample.  Deleting the nonexistent student id
`"aaaabbbbccccddddeeeeffff"` from `exDB1` (whose student collection holds no
such id) returns the 404 error, yet the attendance and grade records
referencing that id are removed: the cascade `delete_many` calls run before
the existence check, so the failed delete does mutate other collections,
refuting the claim as stated. -/
theorem C1_counterexample :
    (delete_student exDB1 "aaaabbbbccccddddeeeeffff").2
        = Except.error Http.notFound404
      ∧ (delete_student exDB1 "aaaabbbbccccddddeeeeffff").1.attendance = []
      ∧ (delete_student exDB1 "aaaabbbbccccddddeeeeffff").1.grades = []
      ∧ exDB1.attendance ≠ [] ∧ exDB1.grades ≠ [] := by
  refine ⟨rfl, rfl, rfl, by decide, by decide⟩

/-- Claim C1, amended.  For an id matching no stored record: DELETE on
Agenda, Grade or Attendance returns the 404 error and leaves the database
entirely unchanged; DELETE on Student also returns 404 and leaves the
student collection unchanged, but first removes every attendance and grade
record whose `student_id` equals the requested id (the cascade runs before
the existence check). -/
theorem C1_deleteMissing (db : DB) (i : String)
    (hs : ∀ s ∈ db.students, s._id ≠ i)
    (hag : ∀ x ∈ db.agendas, x._id ≠ i)
    (hg : ∀ g ∈ db.grades, g._id ≠ i)
    (ha : ∀ a ∈ db.attendance, a._id ≠ i) :
    delete_agenda db i = (db, Except.error Http.notFound404)
      ∧ delete_grade db i = (db, Except.error Http.notFound404)
      ∧ delete_attendance db i = (db, Except.error Http.notFound404)
      ∧ delete_student db i =
          ({ db with
              attendance := db.attendance.filter fun a => a.student_id != i,
              grades := db.grades.filter fun g => g.student_id != i },
            Except.error Http.notFound404) := by
  have hag' : delete_one (fun a : AgendaDoc => a._id == i) db.agendas
      = (db.agendas, 0) :=
    delete_one_of_none _ _ fun x hx => by
      simpa using hag x hx
  have hg' : delete_one (fun g : GradeDoc => g._id == i) db.grades
      = (db.grades, 0) :=
    delete_one_of_none _ _ fun x hx => by
      simpa using hg x hx
  have ha' : delete_one (fun a : AttendanceDoc => a._id == i) db.attendance
      = (db.attendance, 0) :=
    delete_one_of_none _ _ fun x hx => by
      simpa using ha x hx
  have hs' : delete_one (fun s : StudentDoc => s._id == i) db.students
      = (db.students, 0) :=
    delete_one_of_none _ _ fun x hx => by
      simpa using hs x hx
  refine ⟨?_, ?_, ?_, ?_⟩
  · simp only [delete_agenda]
    rw [hag']
    rfl
  · simp only [delete_grade]
    rw [hg']
    rfl
  · simp only [delete_attendance]
    rw [ha']
    rfl
  · simp only [delete_student]
    rw [hs']
    rfl

/-- Claim C1, witness for the amended theorem at the id `"zzz"`, which
matches nothing in `exDB1`. -/
theorem C1_deleteMissing_witness :
    delete_agenda exDB1 "zzz" = (exDB1, Except.error Http.notFound404)
      ∧ delete_grade exDB1 "zzz" = (exDB1, Except.error Http.notFound404)
      ∧ delete_attendance exDB1 "zzz" = (exDB1, Except.error Http.notFound404)
      ∧ delete_student exDB1 "zzz" =
          ({ exDB1 with
              attendance := exDB1.attendance.filter fun a => a.student_id != "zzz",
              grades := exDB1.grades.filter fun g => g.student_id != "zzz" },
            Except.error Http.notFound404) :=
  C1_deleteMissing exDB1 "zzz" (by decide) (by decide) (by decide) (by decide)

/-- Claim C2, counterexample.  A Student body with `name = ""` and
`className = ""` is not rejected: it is accepted and a record with empty
fields is written to the store, refuting the claim that empty strings fail
validation with no store write. -/
theorem C2_counterexample :
    (create_student emptyDB (some "") (some "")).2 = Except.ok "oid0"
      ∧ (create_student emptyDB (some "") (some "")).1.students
          = [⟨"oid0", "", ""⟩] := by
  exact ⟨rfl, rfl⟩

/-- Claim C2, amended.  Student create validation only checks that `name`
and `className` are present: a body missing either field is rejected with
the 422 validation error and no store write occurs, while any body carrying
both fields — empty strings included — is accepted and inserted verbatim. -/
theorem C2_studentValidation (db : DB) (name className : Option String) :
    ((name = none ∨ className = none) →
        create_student db name className = (db, Except.error Http.validation422))
      ∧ (∀ n c, name = some n → className = some c →
          create_student db name className =
            ({ db with students := db.students ++ [⟨freshId db.nextId, n, c⟩],
                       nextId := db.nextId + 1 },
              Except.ok (freshId db.nextId))) := by
  constructor
  · intro h
    rcases h with h | h
    · subst h
      simp [create_student, Student.parse]
    · subst h
      cases name <;> simp [create_student, Student.parse]
  · intro n c hn hc
    subst hn; subst hc
    simp [create_student, Student.parse, create_document_student]

/-- Claim C2, witness for the amended theorem: a body missing `className`
is rejected, and a body with both fields empty strings is inserted. -/
theorem C2_studentValidation_witness :
    create_student emptyDB (some "Budi") none
        = (emptyDB, Except.error Http.validation422)
      ∧ create_student emptyDB (some "") (some "")
          = ({ emptyDB with students := [⟨freshId 0, "", ""⟩], nextId := 1 },
              Except.ok (freshId 0)) :=
  ⟨(C2_studentValidation emptyDB (some "Budi") none).1 (Or.inr rfl),
    (C2_studentValidation emptyDB (some "") (some "")).2 "" "" rfl rfl⟩

/-- Claim C10.  Supplying `student_id` as the empty string on the Grade or
Attendance list endpoints is treated exactly as omitting the parameter
(Python's `if student_id:` is false for the empty string): the grade list
returns all records, and both endpoints return the same result as the
request without the parameter. -/
theorem C10_emptyStudentId (db : DB) (od sd ed : Option Nat) :
    list_grades db (some "") = db.grades
      ∧ list_grades db (some "") = list_grades db none
      ∧ list_attendance db (some "") od sd ed
          = list_attendance db none od sd ed := by
  refine ⟨rfl, rfl, rfl⟩

/-- Claim C4.  When an attendance-list request supplies both an exact date
`on_date` and at least one range bound, the exact-date entry of the filter
is overwritten by the range entry (last-applied wins), so the result equals
that of the same request without `on_date`. -/
theorem C4_onDateOverwritten (db : DB) (student_id : Option String) (od : Nat)
    (sd ed : Option Nat) (h : sd.isSome = true ∨ ed.isSome = true) :
    list_attendance db student_id (some od) sd ed
      = list_attendance db student_id none sd ed := by
  have h1 : dateFilt (some od) sd ed = dateFilt none sd ed := by
    unfold dateFilt
    rcases h with h | h <;> simp [h]
  simp only [list_attendance, h1]

/-- Claim C4, witness: the request with `on_date = 20240215` and a full
range returns the same records as the request without `on_date`. -/
theorem C4_onDateOverwritten_witness :
    list_attendance exDB2 none (some 20240215) (some 20240101) (some 20240131)
      = list_attendance exDB2 none none (some 20240101) (some 20240131) :=
  C4_onDateOverwritten exDB2 none 20240215 (some 20240101) (some 20240131)
    (Or.inl rfl)

/-- Claim C8.  Login with an empty username or password fails with 400;
otherwise it succeeds with a token containing the submitted username, and
the token depends on the username alone, so two logins by the same username
(with any non-empty passwords) yield the same response. -/
theorem C8_login (u p q : String) :
    ((u = "" ∨ p = "") → login u p = Except.error Http.badRequest400)
      ∧ (u ≠ "" → p ≠ "" →
          ∃ t, login u p = Except.ok ⟨t⟩ ∧ ∃ pre post, t = pre ++ u ++ post)
      ∧ (u ≠ "" → p ≠ "" → q ≠ "" → login u p = login u q) := by
  refine ⟨?_, ?_, ?_⟩
  · intro h
    rcases h with h | h <;> subst h <;> simp [login]
  · intro hu hp
    have hu' : (u == "") = false := by simpa using hu
    have hp' : (p == "") = false := by simpa using hp
    refine ⟨"token-" ++ u, ?_, "token-", "", by simp⟩
    simp [login, hu', hp']
  · intro hu hp hq
    have hu' : (u == "") = false := by simpa using hu
    have hp' : (p == "") = false := by simpa using hp
    have hq' : (q == "") = false := by simpa using hq
    simp [login, hu', hp', hq']

/-- Claim C8, witness at username `"alice"` and passwords `"pw1"`, `"pw2"`,
plus the rejection of an empty username. -/
theorem C8_login_witness :
    login "" "pw1" = Except.error Http.badRequest400
      ∧ (∃ t, login "alice" "pw1" = Except.ok ⟨t⟩
          ∧ ∃ pre post, t = pre ++ "alice" ++ post)
      ∧ login "alice" "pw1" = login "alice" "pw2" :=
  ⟨(C8_login "" "pw1" "pw2").1 (Or.inl rfl),
    (C8_login "alice" "pw1" "pw2").2.1 (by decide) (by decide),
    (C8_login "alice" "pw1" "pw2").2.2 (by decide) (by decide) (by decide)⟩

/-- Claim C9.  The attendance upsert writes `created_at` only through its
`$setOnInsert` clause: an updating call (a record for the key already
exists) leaves the `created_at` of every stored record unchanged, and an
inserting call appends one new record whose `created_at` is the empty
value, never a real timestamp. -/
theorem C9_createdAt (db : DB) (pl : Attendance) :
    (db.attendance.any (attKey pl.student_id pl.date) = true →
        (mark_attendance db pl).1.attendance.map (fun a => a.created_at)
          = db.attendance.map fun a => a.created_at)
      ∧ (db.attendance.any (attKey pl.student_id pl.date) = false →
          ∃ doc, (mark_attendance db pl).1.attendance = db.attendance ++ [doc]
            ∧ doc.created_at = none) := by
  constructor
  · intro h
    simp only [mark_attendance, h, if_true]
    exact updateFirst_map (attKey pl.student_id pl.date) (attSet pl)
      (fun a => a.created_at) (fun a => rfl) db.attendance
  · intro h
    simp only [mark_attendance, h, Bool.false_eq_true, if_false]
    exact ⟨_, rfl, rfl⟩

/-- Claim C9, witness: updating the existing `("s1", 20240201)` record of
`exDB2` keeps every `created_at` unchanged, and marking the fresh key
`("s2", 20240301)` appends a record with empty `created_at`. -/
theorem C9_createdAt_witness :
    ((mark_attendance exDB2 ⟨"s1", 20240201, "Hadir"⟩).1.attendance.map
          (fun a => a.created_at)
        = exDB2.attendance.map fun a => a.created_at)
      ∧ ∃ doc, (mark_attendance exDB2 ⟨"s2", 20240301, "Izin"⟩).1.attendance
            = exDB2.attendance ++ [doc] ∧ doc.created_at = none :=
  ⟨(C9_createdAt exDB2 ⟨"s1", 20240201, "Hadir"⟩).1 (by decide),
    (C9_createdAt exDB2 ⟨"s2", 20240301, "Izin"⟩).2 (by decide)⟩

/-- Evaluating the `"student_id"` filter entry built from the query
parameter: the stored value passes exactly when every supplied non-empty
parameter value equals it. -/
theorem matchesSid_sidFilt (student_id : Option String) (x : String) :
    matchesSid (sidFilt student_id) x = true
      ↔ ∀ s, student_id = some s → s ≠ "" → x = s := by
  rcases student_id with _ | s
  · simp [sidFilt, matchesSid]
  · by_cases hs : s = ""
    · subst hs
      simp [sidFilt, matchesSid]
    · have hs' : (s == "") = false := by simpa using hs
      simp only [sidFilt, hs', Bool.false_eq_true, if_false, matchesSid,
        beq_iff_eq]
      constructor
      · intro h t ht _
        cases ht
        exact h
      · intro h
        exact h s rfl hs

/-- Evaluating a `"date"` range filter entry: the stored date passes
exactly when it is at or above every supplied `$gte` bound and at or below
every supplied `$lte` bound. -/
theorem matchesDate_range (g l : Option Nat) (d : Nat) :
    matchesDate (some (DateCond.range g l)) d = true
      ↔ (∀ lo, g = some lo → lo ≤ d) ∧ (∀ hi, l = some hi → d ≤ hi) := by
  rcases g with _ | lo <;> rcases l with _ | hi <;>
    simp [matchesDate, Option.all]

/-- The `"date"` filter entry built with no `on_date`, evaluated: exactly
the inclusive range condition, trivially true when both bounds are
omitted. -/
theorem matchesDate_dateFiltNone (sd ed : Option Nat) (d : Nat) :
    matchesDate (dateFilt none sd ed) d = true
      ↔ (∀ lo, sd = some lo → lo ≤ d) ∧ (∀ hi, ed = some hi → d ≤ hi) := by
  rcases sd with _ | lo <;> rcases ed with _ | hi <;>
    simp [dateFilt, matchesDate, Option.all]

/-- Claim C5.  With a date range supplied, an attendance record is listed
exactly when it is stored, its date lies inclusively within the supplied
bounds, and it passes the `student_id` equality filter when a non-empty one
is supplied — the filters combining by logical AND.  In particular a record
dated strictly after `end_date` is excluded. -/
theorem C5_rangeSemantics (db : DB) (student_id : Option String)
    (on_date sd ed : Option Nat) (h : sd.isSome = true ∨ ed.isSome = true)
    (a : AttendanceDoc) :
    a ∈ list_attendance db student_id on_date sd ed
      ↔ a ∈ db.attendance
        ∧ (∀ s, student_id = some s → s ≠ "" → a.student_id = s)
        ∧ (∀ lo, sd = some lo → lo ≤ a.date)
        ∧ (∀ hi, ed = some hi → a.date ≤ hi) := by
  have hdf : dateFilt on_date sd ed = some (DateCond.range sd ed) := by
    unfold dateFilt
    rcases h with h | h <;> simp [h]
  simp only [list_attendance, hdf, List.mem_filter, Bool.and_eq_true,
    matchesSid_sidFilt, matchesDate_range]

/-- Claim C5, witness over `exDB4` with the range 2024-01-01 to 2024-01-31:
the record dated 2024-01-15 is listed and the record dated 2024-02-01 is
excluded. -/
theorem C5_rangeSemantics_witness :
    (⟨"att1", "s1", 20240115, "Hadir", none⟩ : AttendanceDoc)
        ∈ list_attendance exDB4 none none (some 20240101) (some 20240131)
      ∧ (⟨"att2", "s1", 20240201, "Alfa", none⟩ : AttendanceDoc)
          ∉ list_attendance exDB4 none none (some 20240101) (some 20240131) := by
  constructor
  · refine (C5_rangeSemantics exDB4 none none (some 20240101) (some 20240131)
      (Or.inl rfl) _).mpr ⟨by decide, ?_, ?_, ?_⟩
    · intro s hs _
      exact Option.noConfusion hs
    · intro lo hl
      cases hl
      decide
    · intro hi hh
      cases hh
      decide
  · intro hmem
    have h2 := ((C5_rangeSemantics exDB4 none none (some 20240101)
      (some 20240131) (Or.inl rfl) _).mp hmem).2.2.2 20240131 rfl
    exact absurd h2 (by decide)

/-- Claim C6.  A Grade body whose score lies outside the inclusive range
`[0, 100]` is rejected with the 422 validation error and the database is
untouched, whatever the other fields; a body with all required fields and a
score of exactly 0 or exactly 100 is accepted and inserted. -/
theorem C6_gradeScore (db : DB) (student_id subject : Option String)
    (sc : Rat) (date : Option Nat) :
    ((sc < 0 ∨ 100 < sc) →
        add_grade db student_id subject (some sc) date
          = (db, Except.error Http.validation422))
      ∧ (∀ s su, student_id = some s → subject = some su →
          (sc = 0 ∨ sc = 100) →
          add_grade db student_id subject (some sc) date
            = ({ db with
                  grades := db.grades ++ [⟨freshId db.nextId, s, su, sc, date⟩],
                  nextId := db.nextId + 1 },
                Except.ok (freshId db.nextId))) := by
  constructor
  · intro h
    have hno : ¬ (0 ≤ sc ∧ sc ≤ 100) := by
      rcases h with h | h
      · exact fun hc => absurd hc.1 (not_le.mpr h)
      · exact fun hc => absurd hc.2 (not_le.mpr h)
    rcases student_id with _ | s <;> rcases subject with _ | su <;>
      simp [add_grade, Grade.parse, hno]
  · intro s su hs hsu hsc
    subst hs
    subst hsu
    have hyes : 0 ≤ sc ∧ sc ≤ 100 := by
      rcases hsc with h | h <;> subst h <;> exact ⟨by norm_num, by norm_num⟩
    simp [add_grade, Grade.parse, hyes, create_document_grade]

/-- Claim C6, witness: score 101 is rejected with no store write, scores
100 and 0 are both accepted and written. -/
theorem C6_gradeScore_witness :
    add_grade emptyDB (some "s1") (some "Math") (some 101) none
        = (emptyDB, Except.error Http.validation422)
      ∧ add_grade emptyDB (some "s1") (some "Math") (some 100) none
          = ({ emptyDB with grades := [⟨freshId 0, "s1", "Math", 100, none⟩], nextId := 1 },
              Except.ok (freshId 0))
      ∧ add_grade emptyDB (some "s1") (some "Math") (some 0) none
          = ({ emptyDB with grades := [⟨freshId 0, "s1", "Math", 0, none⟩], nextId := 1 },
              Except.ok (freshId 0)) :=
  ⟨(C6_gradeScore emptyDB (some "s1") (some "Math") 101 none).1
      (Or.inr (by norm_num)),
    (C6_gradeScore emptyDB (some "s1") (some "Math") 100 none).2
      "s1" "Math" rfl rfl (Or.inr rfl),
    (C6_gradeScore emptyDB (some "s1") (some "Math") 0 none).2
      "s1" "Math" rfl rfl (Or.inl rfl)⟩

/-- Claim C7.  The CSV export is the fixed header row followed by exactly
one row per attendance record whose date lies inclusively within the
optional range, with each field rendered as text; when no record matches,
the document is the header row alone. -/
theorem C7_csvShape (db : DB) (sd ed : Option Nat) :
    ∃ included : List AttendanceDoc,
      export_attendance_csv db sd ed = csvHeader :: included.map csvRow
        ∧ (∀ a, a ∈ included ↔ a ∈ db.attendance
            ∧ (∀ lo, sd = some lo → lo ≤ a.date)
            ∧ (∀ hi, ed = some hi → a.date ≤ hi))
        ∧ (included = [] → export_attendance_csv db sd ed = [csvHeader]) := by
  refine ⟨db.attendance.filter fun a => matchesDate (dateFilt none sd ed) a.date,
    rfl, ?_, ?_⟩
  · intro a
    rw [List.mem_filter, matchesDate_dateFiltNone]
  · intro hnil
    show export_attendance_csv db sd ed = [csvHeader]
    simp only [export_attendance_csv]
    rw [hnil]
    rfl

/-- Claim C7, witness: exporting `exDB2` (single record dated 2024-02-01)
over the January 2024 range yields the header row only. -/
theorem C7_csvShape_witness :
    export_attendance_csv exDB2 (some 20240101) (some 20240131)
      = [csvHeader] := by
  obtain ⟨inc, h1, h2, h3⟩ := C7_csvShape exDB2 (some 20240101) (some 20240131)
  refine h3 ?_
  rw [List.eq_nil_iff_forall_not_mem]
  intro a ha
  have h := (h2 a).mp ha
  have hmem := h.1
  have hle := h.2.2 20240131 rfl
  have ha2 : a = ⟨"att2", "s1", 20240201, "Alfa", none⟩ := by
    simpa [exDB2] using hmem
  rw [ha2] at hle
  exact absurd hle (by decide)

/-- The `$set` document of the upsert writes the key fields back, so the
updated record still matches the upsert key. -/
theorem attKey_attSet (pl : Attendance) (a : AttendanceDoc) :
    attKey pl.student_id pl.date (attSet pl a) = true := by
  simp [attKey, attSet]

/-- Updating the first key-matching record of a collection holding at most
one such record leaves exactly one record for the key, carrying the
payload's status. -/
theorem updateFirst_filter_singleton (pl : Attendance) (l : List AttendanceDoc)
    (hc : (l.filter (attKey pl.student_id pl.date)).length ≤ 1)
    (hex : l.any (attKey pl.student_id pl.date) = true) :
    ∃ a, (updateFirst (attKey pl.student_id pl.date) (attSet pl) l).filter
          (attKey pl.student_id pl.date) = [a] ∧ a.status = pl.status := by
  induction l with
  | nil => simp at hex
  | cons x xs ih =>
      by_cases hx : attKey pl.student_id pl.date x = true
      · refine ⟨attSet pl x, ?_, rfl⟩
        have h1 : (xs.filter (attKey pl.student_id pl.date)).length = 0 := by
          have h2 := hc
          rw [List.filter_cons_of_pos hx, List.length_cons] at h2
          omega
        have hxs := List.length_eq_zero.mp h1
        simp only [updateFirst, hx, if_true]
        rw [List.filter_cons_of_pos (attKey_attSet pl x), hxs]
      · have hx' : attKey pl.student_id pl.date x = false := by simpa using hx
        have hex' : xs.any (attKey pl.student_id pl.date) = true := by
          simpa [hx'] using hex
        have hc' : (xs.filter (attKey pl.student_id pl.date)).length ≤ 1 := by
          rw [List.filter_cons_of_neg (by simp [hx'])] at hc
          exact hc
        obtain ⟨a, ha, hs⟩ := ih hc' hex'
        refine ⟨a, ?_, hs⟩
        simp only [updateFirst, hx', Bool.false_eq_true, if_false]
        rw [List.filter_cons_of_neg (by simp [hx']), ha]

/-- One mark-attendance call on a database holding at most one record for
the payload's key leaves exactly one record for that key, carrying the
payload's status, and returns exactly that record. -/
theorem mark_attendance_key (db : DB) (pl : Attendance)
    (hc : (db.attendance.filter (attKey pl.student_id pl.date)).length ≤ 1) :
    ∃ a, (mark_attendance db pl).1.attendance.filter
          (attKey pl.student_id pl.date) = [a]
      ∧ a.status = pl.status
      ∧ (mark_attendance db pl).2 = some a := by
  by_cases hex : db.attendance.any (attKey pl.student_id pl.date) = true
  · obtain ⟨a, ha, hs⟩ := updateFirst_filter_singleton pl db.attendance hc hex
    refine ⟨a, ?_, hs, ?_⟩
    · simp only [mark_attendance, hex, if_true]
      exact ha
    · simp only [mark_attendance, hex, if_true]
      rw [find_eq_head_filter, ha]
      rfl
  · have hex' : db.attendance.any (attKey pl.student_id pl.date) = false := by
      simpa using hex
    have hfl : db.attendance.filter (attKey pl.student_id pl.date) = [] := by
      rw [List.filter_eq_nil_iff]
      intro a hal hpa
      have h2 := List.any_eq_true.mpr ⟨a, hal, hpa⟩
      rw [hex'] at h2
      exact absurd h2 (by decide)
    have hdoc : attKey pl.student_id pl.date
        ⟨freshId db.nextId, pl.student_id, pl.date, pl.status, none⟩ = true := by
      simp [attKey]
    have hfilt : ∀ doc : AttendanceDoc, attKey pl.student_id pl.date doc = true →
        (db.attendance ++ [doc]).filter (attKey pl.student_id pl.date) = [doc] := by
      intro doc hd
      rw [List.filter_append, hfl, List.nil_append,
        List.filter_cons_of_pos hd]
      rfl
    refine ⟨⟨freshId db.nextId, pl.student_id, pl.date, pl.status, none⟩, ?_, rfl, ?_⟩
    · simp only [mark_attendance, hex', Bool.false_eq_true, if_false]
      exact hfilt _ hdoc
    · simp only [mark_attendance, hex', Bool.false_eq_true, if_false]
      rw [find_eq_head_filter, hfilt _ hdoc]
      rfl

/-- Claim C3.  Starting from a database with at most one attendance record
for a `(student_id, date)` key, two successive mark-attendance calls with
that key leave exactly one stored record for the key; its status is the
second call's status (last write wins), and the second call returns exactly
that record. -/
theorem C3_lastWriteWins (db : DB) (sid : String) (d : Nat) (st1 st2 : String)
    (hc : (db.attendance.filter (attKey sid d)).length ≤ 1) :
    ∃ a, (mark_attendance (mark_attendance db ⟨sid, d, st1⟩).1
            ⟨sid, d, st2⟩).1.attendance.filter (attKey sid d) = [a]
      ∧ a.status = st2
      ∧ (mark_attendance (mark_attendance db ⟨sid, d, st1⟩).1
            ⟨sid, d, st2⟩).2 = some a := by
  obtain ⟨a1, ha1, _, _⟩ := mark_attendance_key db ⟨sid, d, st1⟩ hc
  have ha1' : (mark_attendance db ⟨sid, d, st1⟩).1.attendance.filter
      (attKey sid d) = [a1] := ha1
  have hc2 : ((mark_attendance db ⟨sid, d, st1⟩).1.attendance.filter
      (attKey sid d)).length ≤ 1 := by
    rw [ha1']
    simp
  exact mark_attendance_key (mark_attendance db ⟨sid, d, st1⟩).1
    ⟨sid, d, st2⟩ hc2

/-- Claim C3, witness: on the empty database, marking `("s1", 20240101)`
as `"Hadir"` and then `"Alfa"` leaves exactly one record for the key, its
status is `"Alfa"`, and the second call returns it. -/
theorem C3_lastWriteWins_witness :
    (emptyDB.attendance.filter (attKey "s1" 20240101)).length ≤ 1
      ∧ ∃ a, (mark_attendance (mark_attendance emptyDB ⟨"s1", 20240101, "Hadir"⟩).1
              ⟨"s1", 20240101, "Alfa"⟩).1.attendance.filter (attKey "s1" 20240101) = [a]
          ∧ a.status = "Alfa"
          ∧ (mark_attendance (mark_attendance emptyDB ⟨"s1", 20240101, "Hadir"⟩).1
              ⟨"s1", 20240101, "Alfa"⟩).2 = some a :=
  ⟨by decide, C3_lastWriteWins emptyDB "s1" 20240101 "Hadir" "Alfa" (by decide)⟩

end SchoolApi
